import Mathlib

/-!
Shallow embedding of the connection-handshake engine of the `ibc-rs` relayer
(`src/relayer/src/connection.rs`) and of its counterparty introspection layer
(`src/relayer/src/chain/counterparty.rs`).

Identifiers are modelled as strings, durations as nanosecond counts, heights
as naturals.  Chain handles are modelled as records of query functions
returning `Except`; the retry loops of `Connection::handshake` consume
per-attempt outcome oracles (one outcome per attempt index), which abstracts
the chain interaction performed by each `build_*_and_send` call.
-/

namespace IbcRelayer

abbrev ClientId := String
abbrev ConnectionId := String
abbrev ChainId := String
abbrev ChannelId := String
abbrev PortId := String
abbrev Version := String

/-- Transport-level relayer error (opaque in this subsystem). -/
abbrev RelayErr := String

/-- Modelled from the spec: `ConnectionState` lives in the external `ibc`
crate; the spec describes it as the totally ordered enumeration
`Uninitialized < Init < TryOpen < Open`, compared numerically by the engine. -/
inductive State where
  | Uninit
  | Init
  | TryOpen
  | Open
deriving DecidableEq, Repr

/-- Modelled from the spec: the numeric discriminants realising the order
`Uninitialized < Init < TryOpen < Open` (the `as u32` casts in the source). -/
def State.toU32 : State → Nat
  | .Uninit => 0
  | .Init => 1
  | .TryOpen => 2
  | .Open => 3

/-- `connection::Counterparty`: `(client_id, connection_id?, commitment prefix)`. -/
structure Counterparty where
  client_id : ClientId
  connection_id : Option ConnectionId
  commitmentPfx : String
deriving DecidableEq, Repr

/-- `connection::ConnectionEnd`. -/
structure ConnectionEnd where
  state : State
  client_id : ClientId
  counterparty : Counterparty
  versions : List Version
  delay_period : Nat
deriving DecidableEq, Repr

/-- `connection::IdentifiedConnectionEnd`. -/
structure IdentifiedConnectionEnd where
  connection_id : ConnectionId
  connection_end : ConnectionEnd
deriving DecidableEq, Repr

/-- The `ConnectionError` taxonomy of `define_error!` in
`src/relayer/src/connection.rs`, payloads kept where a claim depends on them. -/
inductive ConnErr where
  | relayer (e : RelayErr)
  | missingLocalConnectionId
  | missingCounterpartyConnectionIdField (counterparty : Counterparty)
  | missingCounterpartyConnectionId
  | chainQuery (chain_id : ChainId) (e : RelayErr)
  | connectionQuery (connection_id : ConnectionId) (e : RelayErr)
  | clientOperation (client_id : ClientId) (chain_id : ChainId)
  | submit (chain_id : ChainId) (e : RelayErr)
  | maxDelayPeriod (delay_period : Nat)
  | invalidEvent
  | txResponse (event : String)
  | connectionClientIdMismatch (client_id : ClientId) (foreign_client_id : ClientId)
  | chainIdMismatch (source_chain_id : ChainId) (destination_chain_id : ChainId)
  | connectionNotOpen (state : State)
  | maxRetry
  | supervisor
  | missingConnectionId (chain_id : ChainId)
  | signer (chain_id : ChainId) (e : RelayErr)
  | missingConnectionIdFromEvent
  | missingConnectionInitEvent
  | missingConnectionTryEvent
  | missingConnectionAckEvent
  | missingConnectionConfirmEvent
  | connectionProof (e : RelayErr)
  | connectionAlreadyExist (connection_id : ConnectionId)
deriving DecidableEq, Repr

/-- `MAX_PACKET_DELAY` = 120 seconds, in nanoseconds. -/
def MAX_PACKET_DELAY : Nat := 120 * 1000000000

/-- `MAX_RETRIES` of the handshake loops. -/
def MAX_RETRIES : Nat := 5

/-- `check_destination_connection_state` (connection.rs, bottom of file):
the three compatibility conditions between the existing destination
connection end and the expected one; failure is `connection_already_exist`. -/
def check_destination_connection_state
    (connection_id : ConnectionId)
    (existing_connection expected_connection : ConnectionEnd) :
    Except ConnErr Unit :=
  let good_client_ids :=
    existing_connection.client_id == expected_connection.client_id &&
      existing_connection.counterparty.client_id ==
        expected_connection.counterparty.client_id
  let good_state :=
    existing_connection.state.toU32 ≤ expected_connection.state.toU32
  let good_connection_ids :=
    existing_connection.counterparty.connection_id.isNone ||
      existing_connection.counterparty.connection_id ==
        expected_connection.counterparty.connection_id
  if good_state && good_client_ids && good_connection_ids then
    .ok ()
  else
    .error (.connectionAlreadyExist connection_id)

/-- C6: `check_destination_connection_state` succeeds iff the client ids match
on both sides, the actual state is at most the expected state in the order
`Uninitialized < Init < TryOpen < Open` (via the numeric discriminants), and
the actual counterparty connection id is absent or equal to the expected one;
every other outcome is the `connection_already_exist` error. -/
theorem c6_check_destination_iff
    (connection_id : ConnectionId)
    (existing expected : ConnectionEnd) :
    (check_destination_connection_state connection_id existing expected = .ok () ↔
      ((existing.client_id = expected.client_id ∧
          existing.counterparty.client_id = expected.counterparty.client_id) ∧
        existing.state.toU32 ≤ expected.state.toU32 ∧
        (existing.counterparty.connection_id = none ∨
          existing.counterparty.connection_id = expected.counterparty.connection_id))) ∧
    (check_destination_connection_state connection_id existing expected = .ok () ∨
      check_destination_connection_state connection_id existing expected =
        .error (.connectionAlreadyExist connection_id)) := by
  constructor
  · simp only [check_destination_connection_state]
    split
    · rename_i h
      simp only [Bool.and_eq_true, beq_iff_eq, decide_eq_true_eq,
        Option.isNone_iff_eq_none, Bool.or_eq_true] at h
      simp only [true_iff]
      exact ⟨⟨h.1.2.1, h.1.2.2⟩, h.1.1, h.2⟩
    · rename_i h
      simp only [Bool.and_eq_true, beq_iff_eq, decide_eq_true_eq,
        Option.isNone_iff_eq_none, Bool.or_eq_true] at h
      constructor
      · intro hcontra
        exact absurd hcontra (by simp)
      · intro hc
        exact absurd ⟨⟨hc.2.1, hc.1.1, hc.1.2⟩, hc.2.2⟩ h
  · simp only [check_destination_connection_state]
    split
    · exact Or.inl rfl
    · exact Or.inr rfl

/-! ## Counterparty introspection (`src/relayer/src/chain/counterparty.rs`) -/

/-- Channel states (`ics04_channel::channel::State`), as listed by the spec. -/
inductive ChannelState where
  | Uninit
  | Init
  | TryOpen
  | Open
  | Closed
deriving DecidableEq, Repr

/-- The slice of `ChannelEnd` used by `channel_connection_client`. -/
structure ChannelEnd where
  state : ChannelState
  connection_hops : List ConnectionId
deriving DecidableEq, Repr

/-- Opaque client state (`AnyClientState`), external to this subsystem. -/
abbrev ClientStateModel := String

/-- The supervisor error variants raised by the introspection layer. -/
inductive SupErr where
  | relayer (e : RelayErr)
  | channelUninitialized (port_id : PortId) (channel_id : ChannelId) (chain_id : ChainId)
  | missingConnectionHops (channel_id : ChannelId) (chain_id : ChainId)
  | connectionNotOpen (connection_id : ConnectionId) (channel_id : ChannelId) (chain_id : ChainId)
deriving DecidableEq, Repr

/-- The chain-handle operations consumed by the introspection layer, each
query modelled as a function returning `Except` (transport may fail). -/
structure IntrospectionChain where
  id : ChainId
  query_connection : ConnectionId → Except RelayErr ConnectionEnd
  query_client_connections : ClientId → Except RelayErr (List ConnectionId)
  query_channel : PortId → ChannelId → Except RelayErr ChannelEnd
  query_client_state : ClientId → Except RelayErr ClientStateModel

/-- The `for` loop of `connection_on_destination`: walk the connection ids
returned by the connections-by-client query, query each end, and return the
first whose counterparty connection id points back at the source id. -/
def connection_on_destination_go
    (connection_id_on_source : ConnectionId)
    (counterparty_chain : IntrospectionChain) :
    List ConnectionId → Except SupErr (Option ConnectionEnd)
  | [] => .ok none
  | counterparty_connection :: rest =>
    match counterparty_chain.query_connection counterparty_connection with
    | .error e => .error (.relayer e)
    | .ok counterparty_connection_end =>
      match counterparty_connection_end.counterparty.connection_id with
      | some local_connection_id =>
        if local_connection_id = connection_id_on_source then
          .ok (some counterparty_connection_end)
        else
          connection_on_destination_go connection_id_on_source counterparty_chain rest
      | none =>
        connection_on_destination_go connection_id_on_source counterparty_chain rest

/-- `connection_on_destination` (counterparty.rs): locate the mirror of a
local connection on the counterparty chain when its id is not yet known. -/
def connection_on_destination
    (connection_id_on_source : ConnectionId)
    (counterparty_client_id : ClientId)
    (counterparty_chain : IntrospectionChain) :
    Except SupErr (Option ConnectionEnd) :=
  match counterparty_chain.query_client_connections counterparty_client_id with
  | .error e => .error (.relayer e)
  | .ok counterparty_connections =>
    connection_on_destination_go connection_id_on_source counterparty_chain
      counterparty_connections

/-- `connection_state_on_destination` (counterparty.rs). -/
def connection_state_on_destination
    (connection : IdentifiedConnectionEnd)
    (counterparty_chain : IntrospectionChain) :
    Except SupErr State :=
  match connection.connection_end.counterparty.connection_id with
  | some remote_connection_id =>
    match counterparty_chain.query_connection remote_connection_id with
    | .error e => .error (.relayer e)
    | .ok connection_end => .ok connection_end.state
  | none =>
    match connection_on_destination connection.connection_id
        connection.connection_end.counterparty.client_id counterparty_chain with
    | .error e => .error e
    | .ok (some remote_connection) => .ok remote_connection.state
    | .ok none => .ok State.Uninit

/-- The bundle returned by `channel_connection_client`. -/
structure ChannelConnectionClient where
  channel : PortId × ChannelId × ChannelEnd
  connection : IdentifiedConnectionEnd
  client : ClientId × ClientStateModel
deriving DecidableEq, Repr

/-- `channel_connection_client` (counterparty.rs): query the channel, its
first connection hop and that connection's client. `is_open` on the
connection end is modelled from the spec as `state = Open` (the method lives
in the external `ibc` crate). -/
def channel_connection_client
    (chain : IntrospectionChain) (port_id : PortId) (channel_id : ChannelId) :
    Except SupErr ChannelConnectionClient :=
  match chain.query_channel port_id channel_id with
  | .error e => .error (.relayer e)
  | .ok channel_end =>
    if channel_end.state = ChannelState.Uninit then
      .error (.channelUninitialized port_id channel_id chain.id)
    else
      match channel_end.connection_hops.head? with
      | none => .error (.missingConnectionHops channel_id chain.id)
      | some connection_id =>
        match chain.query_connection connection_id with
        | .error e => .error (.relayer e)
        | .ok connection_end =>
          if ¬ connection_end.state = State.Open then
            .error (.connectionNotOpen connection_id channel_id chain.id)
          else
            match chain.query_client_state connection_end.client_id with
            | .error e => .error (.relayer e)
            | .ok client_state =>
              .ok ⟨(port_id, channel_id, channel_end),
                ⟨connection_id, connection_end⟩,
                (connection_end.client_id, client_state)⟩

/-- An introspection chain whose queries all succeed, built from pure
functions; used to state the claims about the query algorithms themselves. -/
def pureChain (cid : ChainId)
    (fconn : ConnectionId → ConnectionEnd)
    (fclconns : ClientId → List ConnectionId)
    (fchan : PortId → ChannelId → ChannelEnd)
    (fcs : ClientId → ClientStateModel) : IntrospectionChain where
  id := cid
  query_connection := fun i => .ok (fconn i)
  query_client_connections := fun c => .ok (fclconns c)
  query_channel := fun p c => .ok (fchan p c)
  query_client_state := fun c => .ok (fcs c)

@[simp] lemma pureChain_id (cid fconn fclconns fchan fcs) :
    (pureChain cid fconn fclconns fchan fcs).id = cid := rfl

@[simp] lemma pureChain_query_connection (cid fconn fclconns fchan fcs) :
    (pureChain cid fconn fclconns fchan fcs).query_connection =
      fun i => .ok (fconn i) := rfl

@[simp] lemma pureChain_query_client_connections (cid fconn fclconns fchan fcs) :
    (pureChain cid fconn fclconns fchan fcs).query_client_connections =
      fun c => .ok (fclconns c) := rfl

@[simp] lemma pureChain_query_channel (cid fconn fclconns fchan fcs) :
    (pureChain cid fconn fclconns fchan fcs).query_channel =
      fun p c => .ok (fchan p c) := rfl

@[simp] lemma pureChain_query_client_state (cid fconn fclconns fchan fcs) :
    (pureChain cid fconn fclconns fchan fcs).query_client_state =
      fun c => .ok (fcs c) := rfl

/-- On a chain whose queries all succeed, the mirror-search loop returns the
first listed connection whose counterparty connection id is the source id. -/
lemma connection_on_destination_go_pure
    (srcId : ConnectionId) (cid fconn fclconns fchan fcs)
    (l : List ConnectionId) :
    connection_on_destination_go srcId (pureChain cid fconn fclconns fchan fcs) l =
      .ok ((l.find? fun c =>
        (fconn c).counterparty.connection_id == some srcId).map fconn) := by
  induction l with
  | nil => rfl
  | cons c rest ih =>
    cases hcp : (fconn c).counterparty.connection_id with
    | none =>
      rw [List.find?_cons_of_neg _ (by simp [hcp, beq_iff_eq])]
      simp only [connection_on_destination_go, pureChain_query_connection, hcp]
      exact ih
    | some lid =>
      by_cases hl : lid = srcId
      · subst hl
        rw [List.find?_cons_of_pos _ (by simp [hcp])]
        simp [connection_on_destination_go, hcp]
      · rw [List.find?_cons_of_neg _ (by simp [hcp, beq_iff_eq, hl])]
        simp only [connection_on_destination_go, pureChain_query_connection, hcp,
          if_neg hl]
        exact ih

/-- C5: `connection_state_on_destination` returns the directly queried state
when the local end records the counterparty connection id; otherwise it
enumerates the destination's connections for the counterparty client and
returns the state of the first whose counterparty connection id equals the
local connection id, and `Uninitialized` when no such connection exists. -/
theorem c5_connection_state_on_destination
    (cid : ChainId) (fconn : ConnectionId → ConnectionEnd)
    (fclconns : ClientId → List ConnectionId)
    (fchan : PortId → ChannelId → ChannelEnd)
    (fcs : ClientId → ClientStateModel)
    (conn1 conn2 conn3 : IdentifiedConnectionEnd) (rid : ConnectionId)
    (h1 : conn1.connection_end.counterparty.connection_id = some rid)
    (h2 : conn2.connection_end.counterparty.connection_id = none)
    (h3 : conn3.connection_end.counterparty.connection_id = none)
    (h3none : (fclconns conn3.connection_end.counterparty.client_id).find?
      (fun c => (fconn c).counterparty.connection_id == some conn3.connection_id) = none) :
    connection_state_on_destination conn1 (pureChain cid fconn fclconns fchan fcs) =
      .ok (fconn rid).state ∧
    connection_state_on_destination conn2 (pureChain cid fconn fclconns fchan fcs) =
      .ok (match (fclconns conn2.connection_end.counterparty.client_id).find?
            (fun c => (fconn c).counterparty.connection_id == some conn2.connection_id) with
          | some c => (fconn c).state
          | none => State.Uninit) ∧
    connection_state_on_destination conn3 (pureChain cid fconn fclconns fchan fcs) =
      .ok State.Uninit := by
  refine ⟨?_, ?_, ?_⟩
  · simp [connection_state_on_destination, h1]
  · simp only [connection_state_on_destination, h2, connection_on_destination,
      pureChain_query_client_connections, connection_on_destination_go_pure]
    cases hf : (fclconns conn2.connection_end.counterparty.client_id).find?
        (fun c => (fconn c).counterparty.connection_id == some conn2.connection_id) with
    | none => simp [hf]
    | some c => simp [hf]
  · simp [connection_state_on_destination, h3, connection_on_destination,
      connection_on_destination_go_pure, h3none]

/-- Concrete destination chain for the C5 witness: `connection-1` mirrors the
local `connection-0`, every other id is an unrelated end. -/
def c5fconn : ConnectionId → ConnectionEnd := fun c =>
  if c = "connection-1" then
    ⟨State.TryOpen, "07-tendermint-1", ⟨"07-tendermint-0", some "connection-0", "ibc"⟩, ["1"], 0⟩
  else
    ⟨State.Uninit, "07-tendermint-9", ⟨"07-tendermint-9", none, "ibc"⟩, [], 0⟩

def c5chain : IntrospectionChain :=
  pureChain "chain-B" c5fconn (fun _ => ["connection-1"])
    (fun _ _ => ⟨ChannelState.Init, []⟩) (fun _ => "cs")

def c5conn1 : IdentifiedConnectionEnd :=
  ⟨"connection-0",
    ⟨State.Init, "07-tendermint-0", ⟨"07-tendermint-1", some "connection-1", "ibc"⟩, ["1"], 0⟩⟩

def c5conn2 : IdentifiedConnectionEnd :=
  ⟨"connection-0",
    ⟨State.Init, "07-tendermint-0", ⟨"07-tendermint-1", none, "ibc"⟩, ["1"], 0⟩⟩

def c5conn3 : IdentifiedConnectionEnd :=
  ⟨"connection-7",
    ⟨State.Init, "07-tendermint-0", ⟨"07-tendermint-1", none, "ibc"⟩, ["1"], 0⟩⟩

/-- Witness for C5 at a concrete chain: a local end recording `connection-1`
resolves by direct query; one recording nothing resolves through the
connections-by-client enumeration; with no mirror the state is
`Uninitialized`. -/
theorem c5_connection_state_on_destination_witness :
    connection_state_on_destination c5conn1 c5chain = .ok State.TryOpen ∧
    connection_state_on_destination c5conn2 c5chain = .ok State.TryOpen ∧
    connection_state_on_destination c5conn3 c5chain = .ok State.Uninit := by
  obtain ⟨w1, w2, w3⟩ := c5_connection_state_on_destination "chain-B" c5fconn
    (fun _ => ["connection-1"]) (fun _ _ => ⟨ChannelState.Init, []⟩) (fun _ => "cs")
    c5conn1 c5conn2 c5conn3 "connection-1" rfl rfl rfl (by decide)
  refine ⟨?_, ?_, ?_⟩
  · exact w1.trans (by rfl)
  · exact w2.trans (by rfl)
  · exact w3

/-- C9: `channel_connection_client` returns a bundle only when the queried
channel is not `Uninitialized`, has at least one connection hop, and its first
hop refers to an `Open` connection; the three checks are applied in that
order, failing with `channel_uninitialized`, `missing_connection_hops` and
`connection_not_open` respectively.  The four port/channel pairs exercise the
success case and the three failure cases of one all-queries-succeed chain. -/
theorem c9_channel_connection_client
    (cid : ChainId) (fconn : ConnectionId → ConnectionEnd)
    (fclconns : ClientId → List ConnectionId)
    (fchan : PortId → ChannelId → ChannelEnd)
    (fcs : ClientId → ClientStateModel)
    (p1 c1 p2 c2 p3 c3 p4 c4 : String) (hop1 hop4 : ConnectionId)
    (h1state : (fchan p1 c1).state ≠ ChannelState.Uninit)
    (h1hop : (fchan p1 c1).connection_hops.head? = some hop1)
    (h1open : (fconn hop1).state = State.Open)
    (h2state : (fchan p2 c2).state = ChannelState.Uninit)
    (h3state : (fchan p3 c3).state ≠ ChannelState.Uninit)
    (h3hops : (fchan p3 c3).connection_hops = [])
    (h4state : (fchan p4 c4).state ≠ ChannelState.Uninit)
    (h4hop : (fchan p4 c4).connection_hops.head? = some hop4)
    (h4open : (fconn hop4).state ≠ State.Open) :
    channel_connection_client (pureChain cid fconn fclconns fchan fcs) p1 c1 =
      .ok ⟨(p1, c1, fchan p1 c1), ⟨hop1, fconn hop1⟩,
        ((fconn hop1).client_id, fcs (fconn hop1).client_id)⟩ ∧
    channel_connection_client (pureChain cid fconn fclconns fchan fcs) p2 c2 =
      .error (.channelUninitialized p2 c2 cid) ∧
    channel_connection_client (pureChain cid fconn fclconns fchan fcs) p3 c3 =
      .error (.missingConnectionHops c3 cid) ∧
    channel_connection_client (pureChain cid fconn fclconns fchan fcs) p4 c4 =
      .error (.connectionNotOpen hop4 c4 cid) := by
  refine ⟨?_, ?_, ?_, ?_⟩
  · simp only [channel_connection_client, pureChain_query_channel,
      pureChain_query_connection, pureChain_query_client_state, pureChain_id,
      if_neg h1state, h1hop, h1open]
    simp [h1open]
  · simp [channel_connection_client, h2state]
  · simp only [channel_connection_client, pureChain_query_channel, pureChain_id,
      if_neg h3state, h3hops]
    rfl
  · simp only [channel_connection_client, pureChain_query_channel,
      pureChain_query_connection, pureChain_id, if_neg h4state, h4hop]
    simp [h4open]

/-- Concrete chain for the C9 witness: `channel-0` is a healthy transfer
channel over the open `connection-0`; `channel-1` is uninitialized;
`channel-2` has no hops; `channel-3` sits on a connection still in `Init`. -/
def c9fchan : PortId → ChannelId → ChannelEnd := fun _ c =>
  if c = "channel-0" then ⟨ChannelState.Open, ["connection-0"]⟩
  else if c = "channel-1" then ⟨ChannelState.Uninit, []⟩
  else if c = "channel-2" then ⟨ChannelState.Init, []⟩
  else ⟨ChannelState.Init, ["connection-3"]⟩

def c9fconn : ConnectionId → ConnectionEnd := fun c =>
  if c = "connection-0" then
    ⟨State.Open, "07-tendermint-0", ⟨"07-tendermint-1", some "connection-1", "ibc"⟩, ["1"], 0⟩
  else
    ⟨State.Init, "07-tendermint-0", ⟨"07-tendermint-1", none, "ibc"⟩, ["1"], 0⟩

def c9chain : IntrospectionChain :=
  pureChain "chain-A" c9fconn (fun _ => []) c9fchan (fun _ => "client-state")

/-- Witness for C9 on the concrete chain: the success bundle and the three
ordered failure modes. -/
theorem c9_channel_connection_client_witness :
    channel_connection_client c9chain "transfer" "channel-0" =
      .ok ⟨("transfer", "channel-0", ⟨ChannelState.Open, ["connection-0"]⟩),
        ⟨"connection-0",
          ⟨State.Open, "07-tendermint-0", ⟨"07-tendermint-1", some "connection-1", "ibc"⟩, ["1"], 0⟩⟩,
        ("07-tendermint-0", "client-state")⟩ ∧
    channel_connection_client c9chain "transfer" "channel-1" =
      .error (.channelUninitialized "transfer" "channel-1" "chain-A") ∧
    channel_connection_client c9chain "transfer" "channel-2" =
      .error (.missingConnectionHops "channel-2" "chain-A") ∧
    channel_connection_client c9chain "transfer" "channel-3" =
      .error (.connectionNotOpen "connection-3" "channel-3" "chain-A") := by
  obtain ⟨w1, w2, w3, w4⟩ := c9_channel_connection_client "chain-A" c9fconn
    (fun _ => []) c9fchan (fun _ => "client-state")
    "transfer" "channel-0" "transfer" "channel-1" "transfer" "channel-2"
    "transfer" "channel-3" "connection-0" "connection-3"
    (by decide) (by decide) (by decide) (by decide) (by decide) (by decide)
    (by decide) (by decide) (by decide)
  exact ⟨w1.trans (by rfl), w2, w3, w4⟩

/-! ## Connection handshake engine (`src/relayer/src/connection.rs`) -/

/-- The slice of `ForeignClient` the constructors read: its two chains (by
id) and the client id it carries. `a_client.dst_chain()` hosts the client. -/
structure ForeignClient where
  srcChainId : ChainId
  dstChainId : ChainId
  id : ClientId
deriving DecidableEq, Repr

/-- `Connection::validate_clients`: the two clients must serve the same two
chains, mutually. -/
def validate_clients (a_client b_client : ForeignClient) : Except ConnErr Unit :=
  if a_client.srcChainId ≠ b_client.dstChainId then
    .error (.chainIdMismatch a_client.srcChainId b_client.dstChainId)
  else if a_client.dstChainId ≠ b_client.srcChainId then
    .error (.chainIdMismatch a_client.dstChainId b_client.srcChainId)
  else
    .ok ()

/-- `ConnectionSide`: one side of the engine (chain handle reduced to its
id). -/
structure ConnectionSide where
  chain : ChainId
  client_id : ClientId
  connection_id : Option ConnectionId
deriving DecidableEq, Repr

/-- The engine state `Connection { delay_period, a_side, b_side }`. -/
structure Connection where
  delay_period : Nat
  a_side : ConnectionSide
  b_side : ConnectionSide
deriving DecidableEq, Repr

/-- Outcome of one `build_conn_init_and_send` / `build_conn_try_and_send`
attempt: an error (logged and retried by the loop), or a matching event whose
connection-id attribute may be absent (`extract_connection_id` then fails). -/
inductive SendResult where
  | err (e : ConnErr)
  | okEvent (connection_id : Option ConnectionId)
deriving DecidableEq, Repr

/-- The chain interactions of one `handshake` run, abstracted per attempt
index: the Phase-1 Init submissions, the Phase-2 Try submissions, and the
Phase-3 `query_connection` calls on each chain (`none` is a query error). -/
structure HandshakeWorld where
  init_send : Nat → SendResult
  try_send : Nat → SendResult
  query_a : Nat → Option State
  query_b : Nat → Option State

/-- Phase 1 of `handshake`: `while counter < MAX_RETRIES` around
`build_conn_init_and_send`; `fuel` is the number of remaining iterations
(`MAX_RETRIES - counter`), `counter` the Rust counter at the iteration start.
An error continues the loop; a success stores the event's connection id and
breaks; an event without a connection id aborts the whole handshake. -/
def initLoopGo (send : Nat → SendResult) :
    Nat → Nat → Option ConnectionId → Except ConnErr (Option ConnectionId)
  | 0, _, a_connection_id => .ok a_connection_id
  | fuel + 1, counter, a_connection_id =>
    match send counter with
    | .err _ => initLoopGo send fuel (counter + 1) a_connection_id
    | .okEvent none => .error .missingConnectionIdFromEvent
    | .okEvent (some connection_id) => .ok (some connection_id)

/-- Phase 2 of `handshake`: same loop around `build_conn_try_and_send`, whose
first step (`build_conn_try`) fails with `missing_local_connection_id` when
`a_side.connection_id` is absent, before any chain interaction. -/
def tryLoopGo (send : Nat → SendResult) (a_connection_id : Option ConnectionId) :
    Nat → Nat → Option ConnectionId → Except ConnErr (Option ConnectionId)
  | 0, _, b_connection_id => .ok b_connection_id
  | fuel + 1, counter, b_connection_id =>
    match a_connection_id with
    | none => tryLoopGo send a_connection_id fuel (counter + 1) b_connection_id
    | some _ =>
      match send counter with
      | .err _ => tryLoopGo send a_connection_id fuel (counter + 1) b_connection_id
      | .okEvent none => .error .missingConnectionIdFromEvent
      | .okEvent (some connection_id) => .ok (some connection_id)

/-- Phase 3 of `handshake`: require both connection ids, query both ends
(continuing the loop on either query error), and dispatch on the state pair —
`(Open, Open)` returns success, every other pair attempts an Ack or Confirm
whose result is only logged, and the loop continues.  The returned list
records the Rust counter at the start of each executed iteration. -/
def ackLoopGo (query_a query_b : Nat → Option State)
    (a_connection_id b_connection_id : Option ConnectionId) :
    Nat → Nat → List Nat × Except ConnErr Unit
  | 0, _ => ([], .error .maxRetry)
  | fuel + 1, counter =>
    match a_connection_id with
    | none => ([counter], .error .missingLocalConnectionId)
    | some _ =>
      match b_connection_id with
      | none => ([counter], .error .missingCounterpartyConnectionId)
      | some _ =>
        match query_a counter with
        | none =>
          let r := ackLoopGo query_a query_b a_connection_id b_connection_id fuel (counter + 1)
          (counter :: r.1, r.2)
        | some state_a =>
          match query_b counter with
          | none =>
            let r := ackLoopGo query_a query_b a_connection_id b_connection_id fuel (counter + 1)
            (counter :: r.1, r.2)
          | some state_b =>
            match state_a, state_b with
            | State.Open, State.Open => ([counter], .ok ())
            | _, _ =>
              let r := ackLoopGo query_a query_b a_connection_id b_connection_id fuel (counter + 1)
              (counter :: r.1, r.2)

/-- `Connection::handshake`: the three phases in sequence.  The returned
engine is the final state of the mutable `self` (id assignments survive an
error return, as they do through `&mut self` in the source). -/
def handshake (c : Connection) (w : HandshakeWorld) :
    Except ConnErr Unit × Connection :=
  match initLoopGo w.init_send MAX_RETRIES 0 c.a_side.connection_id with
  | .error e => (.error e, c)
  | .ok a_connection_id =>
    let c1 := { c with a_side := { c.a_side with connection_id := a_connection_id } }
    match tryLoopGo w.try_send c1.a_side.connection_id MAX_RETRIES 0
        c1.b_side.connection_id with
    | .error e => (.error e, c1)
    | .ok b_connection_id =>
      let c2 := { c1 with b_side := { c1.b_side with connection_id := b_connection_id } }
      ((ackLoopGo w.query_a w.query_b c2.a_side.connection_id
          c2.b_side.connection_id MAX_RETRIES 0).2, c2)

/-- `Connection::new`: validate the clients, bound the delay period, start
from absent connection ids on both sides, and drive the full handshake. -/
def Connection.new (a_client b_client : ForeignClient) (delay_period : Nat)
    (w : HandshakeWorld) : Except ConnErr Connection :=
  match validate_clients a_client b_client with
  | .error e => .error e
  | .ok _ =>
    if delay_period > MAX_PACKET_DELAY then
      .error (.maxDelayPeriod delay_period)
    else
      let c : Connection :=
        { delay_period
          a_side := ⟨a_client.dstChainId, a_client.id, none⟩
          b_side := ⟨b_client.dstChainId, b_client.id, none⟩ }
      match handshake c w with
      | (.error e, _) => .error e
      | (.ok _, c') => .ok c'

/-- `Connection::find`: validate the clients, then the connection end: both
client ids, then state `Open`, then the counterparty connection id. -/
def Connection.find (a_client b_client : ForeignClient)
    (conn_end_a : IdentifiedConnectionEnd) : Except ConnErr Connection :=
  match validate_clients a_client b_client with
  | .error e => .error e
  | .ok _ =>
    let end_a := conn_end_a.connection_end
    let end_b := end_a.counterparty
    if end_a.client_id ≠ a_client.id then
      .error (.connectionClientIdMismatch end_a.client_id a_client.id)
    else if end_a.counterparty.client_id ≠ b_client.id then
      .error (.connectionClientIdMismatch end_a.counterparty.client_id b_client.id)
    else if ¬ end_a.state = State.Open then
      .error (.connectionNotOpen end_a.state)
    else
      match end_b.connection_id with
      | none => .error (.missingCounterpartyConnectionIdField end_b)
      | some b_conn_id =>
        .ok { delay_period := end_a.delay_period
              a_side := ⟨a_client.dstChainId, a_client.id, some conn_end_a.connection_id⟩
              b_side := ⟨b_client.dstChainId, b_client.id, some b_conn_id⟩ }

/-! ### Loop lemmas -/

/-- When every attempt inside the window fails, Phase 1 leaves the stored id
untouched (and raises no error: the Rust loop just falls through). -/
lemma initLoopGo_all_err (send : Nat → SendResult) :
    ∀ fuel counter a_connection_id,
      (∀ k, k < counter + fuel → ∃ er, send k = .err er) →
      initLoopGo send fuel counter a_connection_id = .ok a_connection_id := by
  intro fuel
  induction fuel with
  | zero => intro counter aId _; rfl
  | succ f ih =>
    intro counter aId h
    obtain ⟨er, her⟩ := h counter (by omega)
    simp only [initLoopGo, her]
    exact ih (counter + 1) aId fun k hk => h k (by omega)

/-- When the first `j` attempts fail and attempt `j` yields an event carrying
`cid`, Phase 1 stores `cid` (and breaks). -/
lemma initLoopGo_first_ok (send : Nat → SendResult) (cid : ConnectionId) :
    ∀ j fuel counter a_connection_id, j < fuel →
      (∀ k, k < j → ∃ er, send (counter + k) = .err er) →
      send (counter + j) = .okEvent (some cid) →
      initLoopGo send fuel counter a_connection_id = .ok (some cid) := by
  intro j
  induction j with
  | zero =>
    intro fuel counter aId hj herr hok
    match fuel, hj with
    | f + 1, _ =>
      simp only [Nat.add_zero] at hok
      simp only [initLoopGo, hok]
  | succ j ih =>
    intro fuel counter aId hj herr hok
    match fuel, hj with
    | f + 1, hj =>
      obtain ⟨er, her⟩ := herr 0 (Nat.succ_pos j)
      simp only [Nat.add_zero] at her
      simp only [initLoopGo, her]
      refine ih f (counter + 1) aId (by omega) (fun k hk => ?_) ?_
      · obtain ⟨er', her'⟩ := herr (k + 1) (by omega)
        exact ⟨er', by simpa [Nat.add_assoc, Nat.add_comm 1 k] using her'⟩
      · simpa [Nat.add_assoc, Nat.add_comm 1 j] using hok

/-- If no attempt returns an event without a connection id, Phase 1 ends
without error, and a present id stays present. -/
lemma initLoopGo_ok_of_no_badEvent (send : Nat → SendResult)
    (h : ∀ k, send k ≠ .okEvent none) :
    ∀ fuel counter a_connection_id,
      ∃ r, initLoopGo send fuel counter a_connection_id = .ok r ∧
        (a_connection_id.isSome → r.isSome) := by
  intro fuel
  induction fuel with
  | zero => intro counter aId; exact ⟨aId, rfl, id⟩
  | succ f ih =>
    intro counter aId
    cases hsk : send counter with
    | err e => simpa only [initLoopGo, hsk] using ih (counter + 1) aId
    | okEvent cido =>
      cases cido with
      | none => exact absurd hsk (h counter)
      | some c => exact ⟨some c, by simp only [initLoopGo, hsk], fun _ => rfl⟩

/-- A Phase-1 result is either the untouched input id or the id carried by
one of the attempts' events. -/
lemma initLoopGo_ok_spec (send : Nat → SendResult) :
    ∀ fuel counter a_connection_id r,
      initLoopGo send fuel counter a_connection_id = .ok r →
      r = a_connection_id ∨
        ∃ k cid, counter ≤ k ∧ k < counter + fuel ∧
          send k = .okEvent (some cid) ∧ r = some cid := by
  intro fuel
  induction fuel with
  | zero =>
    intro counter aId r h
    exact Or.inl (Except.ok.inj h).symm
  | succ f ih =>
    intro counter aId r h
    cases hsk : send counter with
    | err e =>
      rw [initLoopGo, hsk] at h
      rcases ih (counter + 1) aId r h with h1 | ⟨k, cid, hk1, hk2, hk3, hk4⟩
      · exact Or.inl h1
      · exact Or.inr ⟨k, cid, by omega, by omega, hk3, hk4⟩
    | okEvent cido =>
      cases cido with
      | none => rw [initLoopGo, hsk] at h; exact absurd h (by simp)
      | some c =>
        rw [initLoopGo, hsk] at h
        exact Or.inr ⟨counter, c, le_refl _, by omega, hsk, (Except.ok.inj h).symm⟩

/-- Phase 1 can only abort the handshake with
`missing_connection_id_from_event`. -/
lemma initLoopGo_error (send : Nat → SendResult) :
    ∀ fuel counter a_connection_id e,
      initLoopGo send fuel counter a_connection_id = .error e →
      e = .missingConnectionIdFromEvent := by
  intro fuel
  induction fuel with
  | zero => intro counter aId e h; exact absurd h (by simp [initLoopGo])
  | succ f ih =>
    intro counter aId e h
    cases hsk : send counter with
    | err er => rw [initLoopGo, hsk] at h; exact ih (counter + 1) aId e h
    | okEvent cido =>
      cases cido with
      | none => rw [initLoopGo, hsk] at h; exact (Except.error.inj h).symm
      | some c => rw [initLoopGo, hsk] at h; exact absurd h (by simp)

/-- Phase 2 with an absent `a_side.connection_id` fails every attempt before
any chain interaction and leaves the stored `b` id untouched. -/
lemma tryLoopGo_a_none (send : Nat → SendResult) :
    ∀ fuel counter b_connection_id,
      tryLoopGo send none fuel counter b_connection_id = .ok b_connection_id := by
  intro fuel
  induction fuel with
  | zero => intro counter bId; rfl
  | succ f ih => intro counter bId; simpa only [tryLoopGo] using ih (counter + 1) bId

/-- If no attempt returns an event without a connection id, Phase 2 ends
without error, and a present id stays present. -/
lemma tryLoopGo_ok_of_no_badEvent (send : Nat → SendResult)
    (a_connection_id : Option ConnectionId)
    (h : ∀ k, send k ≠ .okEvent none) :
    ∀ fuel counter b_connection_id,
      ∃ r, tryLoopGo send a_connection_id fuel counter b_connection_id = .ok r ∧
        (b_connection_id.isSome → r.isSome) := by
  intro fuel
  induction fuel with
  | zero => intro counter bId; exact ⟨bId, rfl, id⟩
  | succ f ih =>
    intro counter bId
    cases a_connection_id with
    | none => exact ⟨bId, tryLoopGo_a_none send (f + 1) counter bId, id⟩
    | some a =>
      cases hsk : send counter with
      | err e => simpa only [tryLoopGo, hsk] using ih (counter + 1) bId
      | okEvent cido =>
        cases cido with
        | none => exact absurd hsk (h counter)
        | some c => exact ⟨some c, by simp only [tryLoopGo, hsk], fun _ => rfl⟩

/-- A Phase-2 result is either the untouched input id or the id carried by
one of the attempts' events. -/
lemma tryLoopGo_ok_spec (send : Nat → SendResult) (a_connection_id : Option ConnectionId) :
    ∀ fuel counter b_connection_id r,
      tryLoopGo send a_connection_id fuel counter b_connection_id = .ok r →
      r = b_connection_id ∨
        ∃ k cid, counter ≤ k ∧ k < counter + fuel ∧
          send k = .okEvent (some cid) ∧ r = some cid := by
  intro fuel
  induction fuel with
  | zero =>
    intro counter bId r h
    exact Or.inl (Except.ok.inj h).symm
  | succ f ih =>
    intro counter bId r h
    cases a_connection_id with
    | none =>
      rw [tryLoopGo_a_none] at h
      exact Or.inl (Except.ok.inj h).symm
    | some a =>
      cases hsk : send counter with
      | err e =>
        rw [tryLoopGo, hsk] at h
        rcases ih (counter + 1) bId r h with h1 | ⟨k, cid, hk1, hk2, hk3, hk4⟩
        · exact Or.inl h1
        · exact Or.inr ⟨k, cid, by omega, by omega, hk3, hk4⟩
      | okEvent cido =>
        cases cido with
        | none => rw [tryLoopGo, hsk] at h; exact absurd h (by simp)
        | some c =>
          rw [tryLoopGo, hsk] at h
          exact Or.inr ⟨counter, c, le_refl _, by omega, hsk, (Except.ok.inj h).symm⟩

/-- Phase 2 can only abort the handshake with
`missing_connection_id_from_event`. -/
lemma tryLoopGo_error (send : Nat → SendResult) (a_connection_id : Option ConnectionId) :
    ∀ fuel counter b_connection_id e,
      tryLoopGo send a_connection_id fuel counter b_connection_id = .error e →
      e = .missingConnectionIdFromEvent := by
  intro fuel
  induction fuel with
  | zero => intro counter bId e h; exact absurd h (by simp [tryLoopGo])
  | succ f ih =>
    intro counter bId e h
    cases a_connection_id with
    | none => rw [tryLoopGo_a_none] at h; exact absurd h (by simp)
    | some a =>
      cases hsk : send counter with
      | err er => rw [tryLoopGo, hsk] at h; exact ih (counter + 1) bId e h
      | okEvent cido =>
        cases cido with
        | none => rw [tryLoopGo, hsk] at h; exact (Except.error.inj h).symm
        | some c => rw [tryLoopGo, hsk] at h; exact absurd h (by simp)

/-- Phase 3 can only end with a missing id or retry exhaustion. -/
lemma ackLoopGo_error (query_a query_b : Nat → Option State)
    (a_connection_id b_connection_id : Option ConnectionId) :
    ∀ fuel counter e,
      (ackLoopGo query_a query_b a_connection_id b_connection_id fuel counter).2 =
        .error e →
      e = .missingLocalConnectionId ∨ e = .missingCounterpartyConnectionId ∨
        e = .maxRetry := by
  intro fuel
  induction fuel with
  | zero =>
    intro counter e h
    simp only [ackLoopGo] at h
    exact Or.inr (Or.inr (Except.error.inj h).symm)
  | succ f ih =>
    intro counter e h
    cases a_connection_id with
    | none =>
      simp only [ackLoopGo] at h
      exact Or.inl (Except.error.inj h).symm
    | some a =>
      cases b_connection_id with
      | none =>
        simp only [ackLoopGo] at h
        exact Or.inr (Or.inl (Except.error.inj h).symm)
      | some b =>
        cases hqa : query_a counter with
        | none =>
          rw [ackLoopGo] at h
          simp only [hqa] at h
          exact ih (counter + 1) e h
        | some sa =>
          cases hqb : query_b counter with
          | none =>
            rw [ackLoopGo] at h
            simp only [hqa, hqb] at h
            exact ih (counter + 1) e h
          | some sb =>
            rw [ackLoopGo] at h
            simp only [hqa, hqb] at h
            cases sa <;> cases sb <;> simp only [] at h <;>
              first
                | exact absurd h (by simp)
                | exact ih (counter + 1) e h

/-- All Phase-3 queries on chain A failing exhausts the retry budget. -/
lemma ackLoopGo_all_query_a_err (query_a query_b : Nat → Option State)
    (aId bId : ConnectionId) (h : ∀ k, query_a k = none) :
    ∀ fuel counter,
      (ackLoopGo query_a query_b (some aId) (some bId) fuel counter).2 =
        .error .maxRetry := by
  intro fuel
  induction fuel with
  | zero => intro counter; rfl
  | succ f ih =>
    intro counter
    rw [ackLoopGo]
    simp only [h counter]
    exact ih (counter + 1)

/-- A `handshake` run can only fail with one of the four loop errors — in
particular never with `max_delay_period`. -/
lemma handshake_error_classified (c : Connection) (w : HandshakeWorld) (e : ConnErr)
    (h : (handshake c w).1 = .error e) :
    e = .missingConnectionIdFromEvent ∨ e = .missingLocalConnectionId ∨
      e = .missingCounterpartyConnectionId ∨ e = .maxRetry := by
  rw [handshake] at h
  cases hinit : initLoopGo w.init_send MAX_RETRIES 0 c.a_side.connection_id with
  | error e' =>
    rw [hinit] at h
    simp only [] at h
    exact Or.inl ((Except.error.inj h) ▸ initLoopGo_error w.init_send _ _ _ _ hinit)
  | ok aId =>
    rw [hinit] at h
    simp only [] at h
    cases htry : tryLoopGo w.try_send aId MAX_RETRIES 0 c.b_side.connection_id with
    | error e' =>
      simp only [htry] at h
      exact Or.inl ((Except.error.inj h) ▸ tryLoopGo_error w.try_send aId _ _ _ _ htry)
    | ok bId =>
      simp only [htry] at h
      exact Or.inr (ackLoopGo_error w.query_a w.query_b aId bId _ _ e h)

/-- A `handshake` run whose first two phases end without abort: the result is
Phase 3's verdict on the engine carrying the two phases' ids. -/
lemma handshake_eq (c : Connection) (w : HandshakeWorld)
    (aId bId : Option ConnectionId)
    (hi : initLoopGo w.init_send MAX_RETRIES 0 c.a_side.connection_id = .ok aId)
    (ht : tryLoopGo w.try_send aId MAX_RETRIES 0 c.b_side.connection_id = .ok bId) :
    handshake c w =
      ((ackLoopGo w.query_a w.query_b aId bId MAX_RETRIES 0).2,
        { c with
            a_side := { c.a_side with connection_id := aId }
            b_side := { c.b_side with connection_id := bId } }) := by
  rw [handshake, hi]
  simp only []
  rw [ht]

/-! ### C1: Phase-3 retry accounting on query errors -/

/-- A Phase-3 world where every `query_connection` on chain A fails. -/
def c1qa : Nat → Option State := fun _ => none

def c1qb : Nat → Option State := fun _ => some State.Open

/-- The resulting Phase-3 run (counter trace and verdict) from ids present. -/
def c1run : List Nat × Except ConnErr Unit :=
  ackLoopGo c1qa c1qb (some "connection-0") (some "connection-1") MAX_RETRIES 0

/-- C1 is false on the code: in the concrete Phase-3 run whose chain-A
queries all fail, the run ends in `max_retry` after five iterations, and it
is not the case that a failing iteration leaves the counter unchanged — the
iteration after the failing one starts with the counter incremented. -/
theorem c1_phase3_budget_counterexample :
    c1run.2 = .error .maxRetry ∧
    ¬ (∀ k : Nat, c1run.1.get? k ≠ none → c1qa k = none →
        c1run.1.get? (k + 1) = c1run.1.get? k) := by
  refine ⟨rfl, fun h => ?_⟩
  exact absurd (h 0 (by decide) rfl) (by decide)

/-- C1 amended: a Phase-3 iteration that hits a query error on either chain
does continue to the next iteration, but the retry counter was already
incremented at the iteration's start, so the following iteration starts at
`counter + 1` with one unit of budget consumed; in particular a run whose
chain-A queries always fail exhausts the budget and ends in `max_retry`. -/
theorem c1_phase3_budget_amended
    (qa1 qb1 qa2 qb2 : Nat → Option State) (aId bId : ConnectionId)
    (fuel counter : Nat)
    (hfail : qa1 counter = none ∨ qb1 counter = none)
    (hall : ∀ k, qa2 k = none) :
    ackLoopGo qa1 qb1 (some aId) (some bId) (fuel + 1) counter =
      (counter :: (ackLoopGo qa1 qb1 (some aId) (some bId) fuel (counter + 1)).1,
        (ackLoopGo qa1 qb1 (some aId) (some bId) fuel (counter + 1)).2) ∧
    (ackLoopGo qa2 qb2 (some aId) (some bId) fuel counter).2 = .error .maxRetry := by
  constructor
  · rcases hfail with ha | hb
    · rw [ackLoopGo]
      simp only [ha]
    · cases hqa : qa1 counter with
      | none => rw [ackLoopGo]; simp only [hqa]
      | some s => rw [ackLoopGo]; simp only [hqa, hb]
  · exact ackLoopGo_all_query_a_err qa2 qb2 aId bId hall fuel counter

/-- Witness for the amended C1 at the concrete all-errors world. -/
theorem c1_phase3_budget_amended_witness :
    ackLoopGo c1qa c1qb (some "connection-0") (some "connection-1") 5 0 =
      (0 :: (ackLoopGo c1qa c1qb (some "connection-0") (some "connection-1") 4 1).1,
        (ackLoopGo c1qa c1qb (some "connection-0") (some "connection-1") 4 1).2) ∧
    (ackLoopGo c1qa c1qb (some "connection-0") (some "connection-1") 4 0).2 =
      .error .maxRetry :=
  c1_phase3_budget_amended c1qa c1qb c1qa c1qb "connection-0" "connection-1" 4 0
    (Or.inl rfl) (fun _ => rfl)

/-! ### C2: five failing Init submissions -/

/-- A world whose Init and Try submissions always fail. -/
def c2world : HandshakeWorld where
  init_send := fun _ => .err (.submit "chain-A" "tx failed")
  try_send := fun _ => .err (.submit "chain-B" "tx failed")
  query_a := fun _ => some State.Open
  query_b := fun _ => some State.Open

/-- The engine `new` builds before its handshake: both ids absent. -/
def c2engine : Connection :=
  ⟨10, ⟨"chain-A", "07-tendermint-0", none⟩, ⟨"chain-B", "07-tendermint-1", none⟩⟩

/-- C2 is false on the code: when all five Phase-1 Init submissions fail,
`handshake` does not return `max_retry` — `a_side.connection_id` is still
absent at Phase 3's first iteration, which aborts with
`missing_local_connection_id`. -/
theorem c2_init_failures_counterexample :
    (handshake c2engine c2world).1 = .error .missingLocalConnectionId ∧
    (handshake c2engine c2world).1 ≠ .error .maxRetry := by
  refine ⟨rfl, fun h => ?_⟩
  rw [show (handshake c2engine c2world).1 = .error .missingLocalConnectionId from rfl]
    at h
  exact ConnErr.noConfusion (Except.error.inj h)

/-- C2 amended: five consecutive Init submission errors make `handshake`
return `missing_local_connection_id` (raised at Phase 3's first iteration),
not `max_retry`; four errors followed by a success do leave
`a_side.connection_id` set to the id carried by the successful event. -/
theorem c2_init_failures_amended (w1 w2 : HandshakeWorld) (c : Connection)
    (cid : ConnectionId)
    (ha : c.a_side.connection_id = none) (_hb : c.b_side.connection_id = none)
    (h1 : ∀ k, k < 5 → ∃ er, w1.init_send k = .err er)
    (h2 : ∀ k, k < 4 → ∃ er, w2.init_send k = .err er)
    (h3 : w2.init_send 4 = .okEvent (some cid)) :
    (handshake c w1).1 = .error .missingLocalConnectionId ∧
    (handshake c w2).2.a_side.connection_id = some cid := by
  constructor
  · have hinit : initLoopGo w1.init_send MAX_RETRIES 0 c.a_side.connection_id =
        .ok none := by
      rw [ha]
      exact initLoopGo_all_err w1.init_send MAX_RETRIES 0 none
        (fun k hk => h1 k (by simpa [MAX_RETRIES] using hk))
    rw [handshake_eq c w1 none c.b_side.connection_id hinit
      (tryLoopGo_a_none w1.try_send MAX_RETRIES 0 c.b_side.connection_id)]
    rfl
  · have hinit2 : initLoopGo w2.init_send MAX_RETRIES 0 c.a_side.connection_id =
        .ok (some cid) := by
      rw [ha]
      exact initLoopGo_first_ok w2.init_send cid 4 MAX_RETRIES 0 none
        (by simp [MAX_RETRIES])
        (fun k hk => by simpa using h2 k hk)
        (by simpa using h3)
    cases htry : tryLoopGo w2.try_send (some cid) MAX_RETRIES 0
        c.b_side.connection_id with
    | error e =>
      rw [handshake, hinit2]
      simp only []
      rw [htry]
    | ok b' =>
      rw [handshake_eq c w2 (some cid) b' hinit2 htry]

/-- A world with four failing Init submissions and a fifth that succeeds. -/
def c2worldOk : HandshakeWorld where
  init_send := fun k =>
    if k < 4 then .err (.submit "chain-A" "tx failed")
    else .okEvent (some "connection-3")
  try_send := fun _ => .okEvent (some "connection-7")
  query_a := fun _ => some State.Open
  query_b := fun _ => some State.Open

/-- Witness for the amended C2 at the two concrete worlds. -/
theorem c2_init_failures_amended_witness :
    (handshake c2engine c2world).1 = .error .missingLocalConnectionId ∧
    (handshake c2engine c2worldOk).2.a_side.connection_id = some "connection-3" :=
  c2_init_failures_amended c2world c2worldOk c2engine "connection-3" rfl rfl
    (fun _ _ => ⟨.submit "chain-A" "tx failed", rfl⟩)
    (fun k hk => ⟨.submit "chain-A" "tx failed", by
      simp only [c2worldOk]
      rw [if_pos hk]⟩)
    (by decide)

/-! ### C3: handshake on an already-open connection -/

/-- Phase 3 returns success at the very iteration in which both queries
succeed and report `(Open, Open)`. -/
lemma ackLoopGo_open_first (query_a query_b : Nat → Option State)
    (aId bId : ConnectionId) (fuel counter : Nat)
    (hqa : query_a counter = some State.Open)
    (hqb : query_b counter = some State.Open) :
    ackLoopGo query_a query_b (some aId) (some bId) (fuel + 1) counter =
      ([counter], .ok ()) := by
  rw [ackLoopGo]
  simp only [hqa, hqb]

/-- A world in which both chains' Init/Try submissions succeed with freshly
assigned ids and both connection ends report `Open`. -/
def c3world : HandshakeWorld where
  init_send := fun _ => .okEvent (some "connection-9")
  try_send := fun _ => .okEvent (some "connection-8")
  query_a := fun _ => some State.Open
  query_b := fun _ => some State.Open

/-- An engine whose two sides already hold connection ids (as restored from
an existing connection) whose ends are `Open` on both chains. -/
def c3engine : Connection :=
  ⟨0, ⟨"chain-A", "07-tendermint-0", some "connection-0"⟩,
    ⟨"chain-B", "07-tendermint-1", some "connection-1"⟩⟩

/-- C3 is false on the code: re-running `handshake` on an engine whose ends
both report `Open` is not a no-op — Phases 1 and 2 still run, and a
successful Init submission overwrites `a_side.connection_id` (here with the
freshly assigned `connection-9`), mutating the engine state, even though the
run still returns success. -/
theorem c3_open_open_counterexample :
    (handshake c3engine c3world).1 = .ok () ∧
    (handshake c3engine c3world).2 ≠ c3engine ∧
    (handshake c3engine c3world).2.a_side.connection_id = some "connection-9" := by
  exact ⟨rfl, by decide, rfl⟩

/-- C3 amended: on an engine with both ids present, when no submission event
lacks its connection id and both first-iteration queries report `Open`,
`handshake` returns success at the first joint-state check — but Phases 1
and 2 still execute, and a successful first Init submission leaves
`a_side.connection_id` holding that event's id (overwriting the stored
one). -/
theorem c3_open_open_amended (c : Connection) (w : HandshakeWorld)
    (aId bId : ConnectionId)
    (ha : c.a_side.connection_id = some aId)
    (hb : c.b_side.connection_id = some bId)
    (hinit : ∀ k, w.init_send k ≠ .okEvent none)
    (htry : ∀ k, w.try_send k ≠ .okEvent none)
    (hqa : w.query_a 0 = some State.Open)
    (hqb : w.query_b 0 = some State.Open) :
    (handshake c w).1 = .ok () ∧
    (∀ cid, w.init_send 0 = .okEvent (some cid) →
      (handshake c w).2.a_side.connection_id = some cid) := by
  obtain ⟨a', hia, hsa⟩ :=
    initLoopGo_ok_of_no_badEvent w.init_send hinit MAX_RETRIES 0
      c.a_side.connection_id
  obtain ⟨b', hib, hsb⟩ :=
    tryLoopGo_ok_of_no_badEvent w.try_send a' htry MAX_RETRIES 0
      c.b_side.connection_id
  have hsa' : a'.isSome := hsa (by rw [ha]; rfl)
  have hsb' : b'.isSome := hsb (by rw [hb]; rfl)
  obtain ⟨x, hx⟩ := Option.isSome_iff_exists.1 hsa'
  obtain ⟨y, hy⟩ := Option.isSome_iff_exists.1 hsb'
  constructor
  · rw [handshake_eq c w a' b' hia hib]
    subst hx; subst hy
    rw [show (MAX_RETRIES : Nat) = 4 + 1 from rfl,
      ackLoopGo_open_first w.query_a w.query_b x y 4 0 hqa hqb]
  · intro cid hcid
    have hia' : initLoopGo w.init_send MAX_RETRIES 0 c.a_side.connection_id =
        .ok (some cid) :=
      initLoopGo_first_ok w.init_send cid 0 MAX_RETRIES 0 c.a_side.connection_id
        (by simp [MAX_RETRIES]) (fun k hk => absurd hk (Nat.not_lt_zero k))
        (by simpa using hcid)
    have : a' = some cid := Except.ok.inj (hia.symm.trans hia')
    rw [handshake_eq c w a' b' hia hib, this]

/-- Witness for the amended C3 at the concrete open-open engine and world. -/
theorem c3_open_open_amended_witness :
    (handshake c3engine c3world).1 = .ok () ∧
    (handshake c3engine c3world).2.a_side.connection_id = some "connection-9" := by
  obtain ⟨h1, h2⟩ := c3_open_open_amended c3engine c3world "connection-0"
    "connection-1" rfl rfl
    (fun k => by simp [c3world])
    (fun k => by simp [c3world])
    rfl rfl
  exact ⟨h1, h2 "connection-9" rfl⟩

/-! ### C4: a side's connection id, once set, never changes -/

def c4clientA : ForeignClient := ⟨"chain-B", "chain-A", "07-tendermint-0"⟩

def c4clientB : ForeignClient := ⟨"chain-A", "chain-B", "07-tendermint-1"⟩

/-- An open connection end on chain A whose counterparty is known. -/
def c4connEnd : IdentifiedConnectionEnd :=
  ⟨"connection-0",
    ⟨State.Open, "07-tendermint-0", ⟨"07-tendermint-1", some "connection-1", "ibc"⟩,
      ["1"], 0⟩⟩

/-- The engine `find` reconstructs from `c4connEnd`. -/
def c4found : Connection :=
  ⟨0, ⟨"chain-A", "07-tendermint-0", some "connection-0"⟩,
    ⟨"chain-B", "07-tendermint-1", some "connection-1"⟩⟩

/-- A world whose Init submission succeeds with a freshly assigned id. -/
def c4world : HandshakeWorld where
  init_send := fun _ => .okEvent (some "connection-9")
  try_send := fun _ => .okEvent (some "connection-8")
  query_a := fun _ => some State.Open
  query_b := fun _ => some State.Open

/-- C4 is false on the code: an engine reachable through `find` already holds
`a_side.connection_id = connection-0`, yet running `handshake` on it
overwrites that id with the id of the newly observed `OpenInit` event
(`connection-9`) — a set id is changed by a subsequent operation. -/
theorem c4_id_overwrite_counterexample :
    Connection.find c4clientA c4clientB c4connEnd = .ok c4found ∧
    c4found.a_side.connection_id = some "connection-0" ∧
    (handshake c4found c4world).2.a_side.connection_id = some "connection-9" ∧
    ("connection-9" : ConnectionId) ≠ "connection-0" := by
  exact ⟨rfl, rfl, rfl, by decide⟩

/-- C4 amended: during `handshake`, `a_side.connection_id` is written only by
a successful Phase-1 Init observation (to that event's id) and
`b_side.connection_id` only by a successful Phase-2 Try observation; the
write is unconditional, so a present id can be replaced, but an id is never
un-set, and an engine that starts a phase with its id absent acquires an id
only from such an observed event. -/
theorem c4_connection_id_amended (c : Connection) (w : HandshakeWorld) :
    ((handshake c w).2.a_side.connection_id = c.a_side.connection_id ∨
      ∃ k cid, k < MAX_RETRIES ∧ w.init_send k = .okEvent (some cid) ∧
        (handshake c w).2.a_side.connection_id = some cid) ∧
    ((handshake c w).2.b_side.connection_id = c.b_side.connection_id ∨
      ∃ k cid, k < MAX_RETRIES ∧ w.try_send k = .okEvent (some cid) ∧
        (handshake c w).2.b_side.connection_id = some cid) ∧
    (c.a_side.connection_id.isSome → (handshake c w).2.a_side.connection_id.isSome) ∧
    (c.b_side.connection_id.isSome → (handshake c w).2.b_side.connection_id.isSome) := by
  cases hinit : initLoopGo w.init_send MAX_RETRIES 0 c.a_side.connection_id with
  | error e =>
    rw [handshake, hinit]
    simp only []
    exact ⟨Or.inl (by trivial), Or.inl (by trivial), fun h => h, fun h => h⟩
  | ok a' =>
    have haspec := initLoopGo_ok_spec w.init_send MAX_RETRIES 0
      c.a_side.connection_id a' hinit
    cases htry : tryLoopGo w.try_send a' MAX_RETRIES 0 c.b_side.connection_id with
    | error e =>
      rw [handshake, hinit]
      simp only []
      rw [htry]
      simp only []
      refine ⟨?_, Or.inl (by trivial), ?_, fun h => h⟩
      · rcases haspec with h | ⟨k, cid, hk1, hk2, hk3, hk4⟩
        · exact Or.inl h
        · exact Or.inr ⟨k, cid, by omega, hk3, hk4⟩
      · intro hsome
        rcases haspec with h | ⟨k, cid, hk1, hk2, hk3, hk4⟩
        · rw [h]; exact hsome
        · rw [hk4]; rfl
    | ok b' =>
      have hbspec := tryLoopGo_ok_spec w.try_send a' MAX_RETRIES 0
        c.b_side.connection_id b' htry
      rw [handshake_eq c w a' b' hinit htry]
      refine ⟨?_, ?_, ?_, ?_⟩
      · rcases haspec with h | ⟨k, cid, hk1, hk2, hk3, hk4⟩
        · exact Or.inl h
        · exact Or.inr ⟨k, cid, by omega, hk3, hk4⟩
      · rcases hbspec with h | ⟨k, cid, hk1, hk2, hk3, hk4⟩
        · exact Or.inl h
        · exact Or.inr ⟨k, cid, by omega, hk3, hk4⟩
      · intro hsome
        rcases haspec with h | ⟨k, cid, hk1, hk2, hk3, hk4⟩
        · rw [h]; exact hsome
        · rw [hk4]; rfl
      · intro hsome
        rcases hbspec with h | ⟨k, cid, hk1, hk2, hk3, hk4⟩
        · rw [h]; exact hsome
        · rw [hk4]; rfl

/-! ### C7: the delay-period bound in `new` -/

/-- C7: for clients accepted by `validate_clients`, `new` at exactly
`MAX_PACKET_DELAY` never fails with `max_delay_period` (whatever the chains
then do), while any strictly larger delay fails with `max_delay_period`
regardless of the world — i.e. before any handshake step is attempted. -/
theorem c7_delay_period_bound (a_client b_client : ForeignClient)
    (h : validate_clients a_client b_client = .ok ()) (w : HandshakeWorld)
    (d : Nat) (hd : MAX_PACKET_DELAY < d) :
    (∀ d', Connection.new a_client b_client MAX_PACKET_DELAY w ≠
      .error (.maxDelayPeriod d')) ∧
    Connection.new a_client b_client d w = .error (.maxDelayPeriod d) := by
  constructor
  · intro d' hcontra
    rw [Connection.new, h] at hcontra
    simp only [] at hcontra
    rw [if_neg (by omega)] at hcontra
    rcases hh : handshake
        ⟨MAX_PACKET_DELAY, ⟨a_client.dstChainId, a_client.id, none⟩,
          ⟨b_client.dstChainId, b_client.id, none⟩⟩ w with ⟨res, c2⟩
    rw [hh] at hcontra
    cases res with
    | ok u => exact absurd hcontra (by simp)
    | error e =>
      simp only [] at hcontra
      have hcls := handshake_error_classified _ w e (by rw [hh])
      have he := Except.error.inj hcontra
      rcases hcls with h1 | h1 | h1 | h1 <;> simp [h1] at he
  · rw [Connection.new, h]
    simp only []
    rw [if_pos hd]

def c7world : HandshakeWorld where
  init_send := fun _ => .okEvent (some "connection-0")
  try_send := fun _ => .okEvent (some "connection-1")
  query_a := fun _ => some State.Open
  query_b := fun _ => some State.Open

/-- Witness for C7 at a concrete mutually consistent client pair. -/
theorem c7_delay_period_bound_witness :
    (∀ d', Connection.new c4clientA c4clientB MAX_PACKET_DELAY c7world ≠
      .error (.maxDelayPeriod d')) ∧
    Connection.new c4clientA c4clientB (MAX_PACKET_DELAY + 1) c7world =
      .error (.maxDelayPeriod (MAX_PACKET_DELAY + 1)) :=
  c7_delay_period_bound c4clientA c4clientB rfl c7world (MAX_PACKET_DELAY + 1)
    (by omega)

/-! ### C8: `find` -/

/-- C8: given clients accepted by `validate_clients`, `find` returns a
`Connection` exactly when the end is `Open`, its client id and counterparty
client id match the two clients, and its counterparty connection id is
present; either client-id disagreement yields `connection_client_id_mismatch`,
a non-`Open` state (with matching clients) yields `connection_not_open`, and
an absent counterparty connection id (with matching clients, `Open`) yields
`missing_counterparty_connection_id_field`. -/
theorem c8_find_characterisation (a_client b_client : ForeignClient)
    (conn_end_a : IdentifiedConnectionEnd)
    (h : validate_clients a_client b_client = .ok ()) :
    ((∃ conn, Connection.find a_client b_client conn_end_a = .ok conn) ↔
      (conn_end_a.connection_end.state = State.Open ∧
        conn_end_a.connection_end.client_id = a_client.id ∧
        conn_end_a.connection_end.counterparty.client_id = b_client.id ∧
        conn_end_a.connection_end.counterparty.connection_id.isSome)) ∧
    ((conn_end_a.connection_end.client_id ≠ a_client.id ∨
        conn_end_a.connection_end.counterparty.client_id ≠ b_client.id) →
      ∃ x y, Connection.find a_client b_client conn_end_a =
        .error (.connectionClientIdMismatch x y)) ∧
    (conn_end_a.connection_end.client_id = a_client.id →
      conn_end_a.connection_end.counterparty.client_id = b_client.id →
      conn_end_a.connection_end.state ≠ State.Open →
      Connection.find a_client b_client conn_end_a =
        .error (.connectionNotOpen conn_end_a.connection_end.state)) ∧
    (conn_end_a.connection_end.client_id = a_client.id →
      conn_end_a.connection_end.counterparty.client_id = b_client.id →
      conn_end_a.connection_end.state = State.Open →
      conn_end_a.connection_end.counterparty.connection_id = none →
      Connection.find a_client b_client conn_end_a =
        .error (.missingCounterpartyConnectionIdField
          conn_end_a.connection_end.counterparty)) := by
  refine ⟨⟨?_, ?_⟩, ?_, ?_, ?_⟩
  · rintro ⟨conn, hconn⟩
    simp only [Connection.find, h] at hconn
    by_cases h1 : conn_end_a.connection_end.client_id = a_client.id
    · rw [if_neg (by simp [h1])] at hconn
      by_cases h2 : conn_end_a.connection_end.counterparty.client_id = b_client.id
      · rw [if_neg (by simp [h2])] at hconn
        by_cases h3 : conn_end_a.connection_end.state = State.Open
        · rw [if_neg (by simp [h3])] at hconn
          cases hcp : conn_end_a.connection_end.counterparty.connection_id with
          | none => rw [hcp] at hconn; exact Except.noConfusion hconn
          | some bid => exact ⟨h3, h1, h2, by simp [hcp]⟩
        · rw [if_pos h3] at hconn
          exact Except.noConfusion hconn
      · rw [if_pos h2] at hconn
        exact Except.noConfusion hconn
    · rw [if_pos h1] at hconn
      exact Except.noConfusion hconn
  · rintro ⟨hopen, hca, hcb, hsome⟩
    obtain ⟨bid, hbid⟩ := Option.isSome_iff_exists.1 hsome
    simp only [Connection.find, h]
    rw [if_neg (by simp [hca]), if_neg (by simp [hcb]), if_neg (by simp [hopen]),
      hbid]
    exact ⟨_, rfl⟩
  · intro hmm
    simp only [Connection.find, h]
    by_cases h1 : conn_end_a.connection_end.client_id = a_client.id
    · have h2 : conn_end_a.connection_end.counterparty.client_id ≠ b_client.id := by
        rcases hmm with hx | hx
        · exact absurd h1 hx
        · exact hx
      rw [if_neg (by simp [h1]), if_pos h2]
      exact ⟨_, _, rfl⟩
    · rw [if_pos h1]
      exact ⟨_, _, rfl⟩
  · intro hca hcb hnotopen
    simp only [Connection.find, h]
    rw [if_neg (by simp [hca]), if_neg (by simp [hcb]), if_pos hnotopen]
  · intro hca hcb hopen hcp
    simp only [Connection.find, h]
    rw [if_neg (by simp [hca]), if_neg (by simp [hcb]), if_neg (by simp [hopen]),
      hcp]

/-- A connection end still in `Init`, for the failure side of the witness. -/
def c8badEnd : IdentifiedConnectionEnd :=
  ⟨"connection-0",
    ⟨State.Init, "07-tendermint-0", ⟨"07-tendermint-1", none, "ibc"⟩, ["1"], 0⟩⟩

/-- Witness for C8 at concrete inputs: an `Open` end with matching clients and
present counterparty id is accepted; an `Init` end is rejected as
`connection_not_open`. -/
theorem c8_find_characterisation_witness :
    (∃ conn, Connection.find c4clientA c4clientB c4connEnd = .ok conn) ∧
    Connection.find c4clientA c4clientB c8badEnd =
      .error (.connectionNotOpen State.Init) := by
  obtain ⟨hiff, -, -, -⟩ := c8_find_characterisation c4clientA c4clientB c4connEnd rfl
  obtain ⟨-, -, hnot, -⟩ := c8_find_characterisation c4clientA c4clientB c8badEnd rfl
  exact ⟨hiff.mpr ⟨rfl, rfl, rfl, rfl⟩, hnot rfl rfl (by decide)⟩

/-! ### C10: version selection in the step builders -/

/-- `ConnectionMsgType` (connection.rs). -/
inductive ConnectionMsgType where
  | OpenTry
  | OpenAck
  | OpenConfirm
deriving DecidableEq, Repr

/-- The semantic fields of `MsgConnectionOpenInit` assembled by
`build_conn_init`. -/
structure MsgConnectionOpenInit where
  client_id : ClientId
  counterparty : Counterparty
  version : Version
  delay_period : Nat
  signer : String
deriving DecidableEq, Repr

/-- The semantic fields of `MsgConnectionOpenAck` assembled by
`build_conn_ack`. -/
structure MsgConnectionOpenAck where
  connection_id : ConnectionId
  counterparty_connection_id : ConnectionId
  client_state : ClientStateModel
  proofs_height : Nat
  version : Version
  signer : String
deriving DecidableEq, Repr

/-- The chain-handle operations the step builders consume, each modelled as
an `Except`-valued field (transport may fail). -/
structure ChainOps where
  id : ChainId
  get_signer : Except RelayErr String
  query_commitment_pfx : Except RelayErr String
  query_compatible_versions : Except RelayErr (List Version)
  query_latest_height : Except RelayErr Nat
  query_connection : ConnectionId → Except RelayErr ConnectionEnd
  send_msgs : Except RelayErr Unit
  build_connection_proofs_and_client_state :
    ConnectionMsgType → ConnectionId → ClientId → Nat →
      Except RelayErr (ClientStateModel × Nat)

/-- `validated_expected_connection` (connection.rs): build the expected
destination end (state `TryOpen` for Ack/Confirm), retrieve the actual one,
reject `Uninitialized`, and run `check_destination_connection_state`. -/
def validated_expected_connection (c : Connection) (src dst : ChainOps)
    (msg_type : ConnectionMsgType) : Except ConnErr ConnectionEnd :=
  match c.b_side.connection_id with
  | none => .error .missingCounterpartyConnectionId
  | some dst_connection_id =>
    match src.query_commitment_pfx with
    | .error e => .error (.chainQuery src.id e)
    | .ok pfx =>
      let counterparty : Counterparty :=
        ⟨c.a_side.client_id, c.a_side.connection_id, pfx⟩
      let highest_state :=
        match msg_type with
        | .OpenAck => State.TryOpen
        | .OpenConfirm => State.TryOpen
        | _ => State.Uninit
      match src.query_compatible_versions with
      | .error e => .error (.chainQuery src.id e)
      | .ok versions =>
        let dst_expected_connection : ConnectionEnd :=
          ⟨highest_state, c.b_side.client_id, counterparty, versions, 0⟩
        match dst.query_connection dst_connection_id with
        | .error e => .error (.chainQuery dst.id e)
        | .ok dst_connection =>
          if dst_connection.state = State.Uninit then
            .error (.missingConnectionId dst.id)
          else
            match check_destination_connection_state dst_connection_id
                dst_connection dst_expected_connection with
            | .error e => .error e
            | .ok _ => .ok dst_expected_connection

/-- `build_conn_init` (connection.rs): signer on B, commitment prefix of A,
counterparty `(src_client_id, none, prefix)`, then the FIRST compatible
version advertised by B — an unchecked `[0]` index, modelled as `none`
(an index-out-of-bounds panic, not a `ConnectionError`) when the list is
empty. -/
def build_conn_init (c : Connection) (src dst : ChainOps) :
    Option (Except ConnErr MsgConnectionOpenInit) :=
  match dst.get_signer with
  | .error e => some (.error (.signer dst.id e))
  | .ok signer =>
    match src.query_commitment_pfx with
    | .error e => some (.error (.chainQuery src.id e))
    | .ok pfx =>
      let counterparty : Counterparty := ⟨c.a_side.client_id, none, pfx⟩
      match dst.query_compatible_versions with
      | .error e => some (.error (.chainQuery dst.id e))
      | .ok versions =>
        match versions.get? 0 with
        | none => none
        | some version =>
          some (.ok ⟨c.b_side.client_id, counterparty, version,
            c.delay_period, signer⟩)

/-- `build_conn_ack` (connection.rs): both ids, the validated expected
connection, the source connection end, client updates and proofs (the
update-client builders of the external foreign client are abstracted as the
`updSrc`/`updDst` outcomes), the signer, and finally the FIRST element of the
source connection's versions — an unchecked `[0]` index, modelled as `none`
(a panic, not a `ConnectionError`) when that list is empty. -/
def build_conn_ack (c : Connection) (src dst : ChainOps)
    (updSrc updDst : Except ConnErr Unit) :
    Option (Except ConnErr MsgConnectionOpenAck) :=
  match c.a_side.connection_id with
  | none => some (.error .missingLocalConnectionId)
  | some src_connection_id =>
    match c.b_side.connection_id with
    | none => some (.error .missingCounterpartyConnectionId)
    | some dst_connection_id =>
      match validated_expected_connection c src dst ConnectionMsgType.OpenAck with
      | .error e => some (.error e)
      | .ok _ =>
        match src.query_connection src_connection_id with
        | .error e => some (.error (.chainQuery src.id e))
        | .ok src_connection =>
          match dst.query_latest_height with
          | .error e => some (.error (.chainQuery dst.id e))
          | .ok _src_client_target_height =>
            match updSrc with
            | .error e => some (.error e)
            | .ok _ =>
              match src.send_msgs with
              | .error e => some (.error (.submit src.id e))
              | .ok _ =>
                match src.query_latest_height with
                | .error e => some (.error (.chainQuery src.id e))
                | .ok query_height =>
                  match src.build_connection_proofs_and_client_state
                      ConnectionMsgType.OpenAck src_connection_id
                      c.a_side.client_id query_height with
                  | .error e => some (.error (.connectionProof e))
                  | .ok (client_state, proofs_height) =>
                    match updDst with
                    | .error e => some (.error e)
                    | .ok _ =>
                      match dst.get_signer with
                      | .error e => some (.error (.signer dst.id e))
                      | .ok signer =>
                        match src_connection.versions.get? 0 with
                        | none => none
                        | some version =>
                          some (.ok ⟨dst_connection_id, src_connection_id,
                            client_state, proofs_height, version, signer⟩)

/-- Chain operations that all succeed, built from pure values. -/
def okChainOps (cid : ChainId) (signer pfx : String) (versions : List Version)
    (height : Nat) (fconn : ConnectionId → ConnectionEnd)
    (pcs : ClientStateModel × Nat) : ChainOps where
  id := cid
  get_signer := .ok signer
  query_commitment_pfx := .ok pfx
  query_compatible_versions := .ok versions
  query_latest_height := .ok height
  query_connection := fun i => .ok (fconn i)
  send_msgs := .ok ()
  build_connection_proofs_and_client_state := fun _ _ _ _ => .ok pcs

/-- C10: with every chain operation succeeding, `build_conn_init` reaches its
`[0]` index on the destination chain's compatible versions and
`build_conn_ack` reaches its `[0]` index on the source connection's versions;
each access panics (result `none`, not any `ConnectionError`) exactly when
the respective list is empty, and is in bounds otherwise. -/
theorem c10_version_indexing (c : Connection)
    (cid1 cid2 signer1 signer2 pfx1 pfx2 : String)
    (versions1 versions2 : List Version) (h1 h2 : Nat)
    (fconn1 fconn2 : ConnectionId → ConnectionEnd)
    (pcs1 pcs2 : ClientStateModel × Nat) (aid bid : ConnectionId)
    (ha : c.a_side.connection_id = some aid)
    (hb : c.b_side.connection_id = some bid)
    (hvec : ∃ x, validated_expected_connection c
      (okChainOps cid1 signer1 pfx1 versions1 h1 fconn1 pcs1)
      (okChainOps cid2 signer2 pfx2 versions2 h2 fconn2 pcs2)
      ConnectionMsgType.OpenAck = .ok x) :
    (build_conn_init c (okChainOps cid1 signer1 pfx1 versions1 h1 fconn1 pcs1)
        (okChainOps cid2 signer2 pfx2 versions2 h2 fconn2 pcs2) = none ↔
      versions2 = []) ∧
    (build_conn_ack c (okChainOps cid1 signer1 pfx1 versions1 h1 fconn1 pcs1)
        (okChainOps cid2 signer2 pfx2 versions2 h2 fconn2 pcs2)
        (.ok ()) (.ok ()) = none ↔
      (fconn1 aid).versions = []) := by
  obtain ⟨x, hx⟩ := hvec
  constructor
  · simp only [build_conn_init, okChainOps]
    cases versions2 <;> simp
  · simp only [build_conn_ack, ha, hb]
    rw [hx]
    simp only [okChainOps]
    cases hv : (fconn1 aid).versions <;> simp [hv]

/-- Engine for the C10 witness: both connection ids known. -/
def c10eng : Connection :=
  ⟨0, ⟨"chain-A", "07-tendermint-0", some "connection-0"⟩,
    ⟨"chain-B", "07-tendermint-1", some "connection-1"⟩⟩

/-- Source connection end with a non-empty version list. -/
def c10fconnSrc : ConnectionId → ConnectionEnd := fun _ =>
  ⟨State.Init, "07-tendermint-0", ⟨"07-tendermint-1", none, "ibc"⟩, ["1"], 0⟩

/-- Destination end compatible with the expected one at Ack time. -/
def c10fconnDst : ConnectionId → ConnectionEnd := fun _ =>
  ⟨State.TryOpen, "07-tendermint-1", ⟨"07-tendermint-0", some "connection-0", "ibc"⟩,
    ["1"], 0⟩

def c10src : ChainOps :=
  okChainOps "chain-A" "signer-a" "ibc" ["1"] 100 c10fconnSrc ("cs", 99)

/-- The destination chain here advertises an EMPTY compatible-version list,
exercising the out-of-bounds side of the Init index. -/
def c10dst : ChainOps :=
  okChainOps "chain-B" "signer-b" "ibc" [] 200 c10fconnDst ("cs", 199)

/-- Witness for C10 at concrete chains: the Init builder's index panics on
the destination's empty version list, while the Ack builder's index is in
bounds on the source connection's non-empty one. -/
theorem c10_version_indexing_witness :
    (build_conn_init c10eng c10src c10dst = none ↔ ([] : List Version) = []) ∧
    (build_conn_ack c10eng c10src c10dst (.ok ()) (.ok ()) = none ↔
      (c10fconnSrc "connection-0").versions = []) :=
  c10_version_indexing c10eng "chain-A" "chain-B" "signer-a" "signer-b" "ibc" "ibc"
    ["1"] [] 100 200 c10fconnSrc c10fconnDst ("cs", 99) ("cs", 199)
    "connection-0" "connection-1" rfl rfl ⟨_, rfl⟩

end IbcRelayer
